import Mathlib

/-!
Shallow embedding of the Turtle Adventure game core
(src/turtle_adventure.py) and proofs about its claims.

Positions and sizes are embedded as rationals (`ℚ`): Python floats on the
values this program manipulates (integer spawn points, steps of the form
`level * 3 / 4`, halved sizes) behave exactly like exact rational
arithmetic, and `ℚ` keeps every definition executable and decidable.
The player's waypoint-seeking step (which uses Euclidean distance and a
unit heading) is embedded over `ℝ` with `Real.sqrt`.
-/

namespace TurtleAdventure

/-! ## Collision tests (Enemy.hits_player, Home.contains) -/

/-- Embedding of `Enemy.hits_player` (src/turtle_adventure.py:241-251):
`(self.x - self.size/2 < player.x < self.x + self.size/2) and
 (self.y - self.size/2 < player.y < self.y + self.size/2)`.
Arguments: enemy centre `(ex, ey)`, enemy `size`, player `(px, py)`. -/
def hits_player (ex ey size px py : ℚ) : Bool :=
  decide (ex - size / 2 < px ∧ px < ex + size / 2) &&
  decide (ey - size / 2 < py ∧ py < ey + size / 2)

/-- Embedding of `Home.contains` (src/turtle_adventure.py:132-138):
`x1, x2 = self.x - self.size/2, self.x + self.size/2` (same for y),
`return x1 <= x <= x2 and y1 <= y <= y2`. -/
def Home.contains (hx hy size x y : ℚ) : Bool :=
  decide (hx - size / 2 ≤ x ∧ x ≤ hx + size / 2) &&
  decide (hy - size / 2 ≤ y ∧ y ≤ hy + size / 2)

/-! ## Constructors (TurtleAdventureGame.__init__, Enemy.__init__) -/

/-- Configuration stored by `TurtleAdventureGame.__init__`
(src/turtle_adventure.py:622-632): the constructor assigns
`self.level = level`, `self.screen_width = screen_width`,
`self.screen_height = screen_height` and starts with an empty
`self.enemies` list; it performs no validation. -/
structure GameCfg where
  level : ℤ
  screen_width : ℤ
  screen_height : ℤ
  enemies : List ℤ
  deriving Repr, DecidableEq

/-- Embedding of `TurtleAdventureGame.__init__`: stores the arguments
verbatim and initialises `enemies` to `[]`. -/
def mkTurtleAdventureGame (screen_width screen_height level : ℤ) : GameCfg :=
  { level := level
    screen_width := screen_width
    screen_height := screen_height
    enemies := [] }

/-- Configuration stored by `Enemy.__init__`
(src/turtle_adventure.py:219-225): assigns `self.__size = size`,
`self.__color = color`; no validation. -/
structure EnemyCfg where
  size : ℤ
  color : String
  deriving Repr, DecidableEq

/-- Embedding of `Enemy.__init__`: stores the arguments verbatim. -/
def mkEnemy (size : ℤ) (color : String) : EnemyCfg :=
  { size := size, color := color }

/-! ## Spawn scheduler (EnemyGenerator.create_enemy) -/

/-- The re-roll guard of `EnemyGenerator.create_enemy`
(src/turtle_adventure.py:609): `while 40 < enemy.x < 60` — re-roll while x
is strictly between 40 and 60. -/
def inForbiddenBand (x : ℤ) : Bool :=
  decide (40 < x ∧ x < 60)

/-- The random-in-bounds x placement loop of `create_enemy`
(src/turtle_adventure.py:607-610), with the stream of `random.randint`
draws made explicit as a list: take the first draw the `while` guard does
not reject (`none` when the supplied draws run out). -/
def pickX : List ℤ → Option ℤ
  | [] => none
  | x :: rest => if inForbiddenBand x then pickX rest else some x

/-- The reschedule delay of `create_enemy` (src/turtle_adventure.py:613):
`int(4000 / self.game.level)`. Python's float division followed by `int`
truncation agrees with floor division for these magnitudes; for a positive
level this is natural-number division. -/
def schedDelay (level : ℕ) : ℕ :=
  4000 / level

/-! ## Bomb (timed projectile) -/

/-- State of a `Bomb` (src/turtle_adventure.py:519-555): its elapsed-tick
counter (`self.timer = 0` at construction) and whether its canvas item has
been deleted by `self.delete()`. -/
structure BombState where
  timer : ℕ
  deleted : Bool
  deriving Repr, DecidableEq

/-- A freshly constructed Bomb: `timer = 0`, canvas item live. -/
def Bomb.init : BombState :=
  { timer := 0, deleted := false }

/-- The observable effects of one `Bomb.update` call
(src/turtle_adventure.py:536-545): the new state, whether this call armed
the bomb and ran `hits_player` against the player, and whether this call
invoked `self.delete()`. -/
structure BombTick where
  state : BombState
  didHitTest : Bool
  selfDeleted : Bool
  deriving Repr, DecidableEq

/-- Embedding of `Bomb.update`: `self.timer += 1`; if `timer >= 20` arm
(recolour) and run the hit test; if `timer >= 21` call `self.delete()`. -/
def Bomb.update (s : BombState) : BombTick :=
  let t := s.timer + 1
  { state := { timer := t, deleted := s.deleted || decide (21 ≤ t) }
    didHitTest := decide (20 ≤ t)
    selfDeleted := decide (21 ≤ t) }

/-- The bomb's state after `n` update calls (update call `n` makes
`timer = n`). -/
def Bomb.stateAfter : ℕ → BombState
  | 0 => Bomb.init
  | n + 1 => (Bomb.update (Bomb.stateAfter n)).state

/-- The observable effects of the `n`-th update call (`n ≥ 1`). -/
def Bomb.tickAt (n : ℕ) : BombTick :=
  Bomb.update (Bomb.stateAfter (n - 1))

end TurtleAdventure

namespace TurtleAdventure

/-- Claim C3: `hits_player` is true iff the player's point lies strictly
inside the axis-aligned square centred at the enemy's position with edge
length `size` (half-edge margin checked independently on both axes), and
`Home.contains` is true iff the point lies in Home's rectangle with
inclusive bounds. -/
theorem C3_hits_strict_contains_inclusive (ex ey size px py hx hy hsize x y : ℚ) :
    (hits_player ex ey size px py = true ↔
      |px - ex| < size / 2 ∧ |py - ey| < size / 2) ∧
    (Home.contains hx hy hsize x y = true ↔
      |x - hx| ≤ hsize / 2 ∧ |y - hy| ≤ hsize / 2) := by
  constructor
  · simp only [hits_player, Bool.and_eq_true, decide_eq_true_eq, abs_sub_lt_iff]
    constructor
    · rintro ⟨⟨h1, h2⟩, h3, h4⟩
      exact ⟨⟨by linarith, by linarith⟩, by linarith, by linarith⟩
    · rintro ⟨⟨h1, h2⟩, h3, h4⟩
      exact ⟨⟨by linarith, by linarith⟩, by linarith, by linarith⟩
  · simp only [Home.contains, Bool.and_eq_true, decide_eq_true_eq, abs_sub_le_iff]
    constructor
    · rintro ⟨⟨h1, h2⟩, h3, h4⟩
      exact ⟨⟨by linarith, by linarith⟩, by linarith, by linarith⟩
    · rintro ⟨⟨h1, h2⟩, h3, h4⟩
      exact ⟨⟨by linarith, by linarith⟩, by linarith, by linarith⟩

end TurtleAdventure

namespace TurtleAdventure

/-! ## Supporting lemmas for the Bomb -/

theorem Bomb.stateAfter_timer (n : ℕ) : (Bomb.stateAfter n).timer = n := by
  induction n with
  | zero => rfl
  | succ k ih => simp [Bomb.stateAfter, Bomb.update, ih]

theorem Bomb.stateAfter_deleted (n : ℕ) :
    (Bomb.stateAfter n).deleted = decide (21 ≤ n) := by
  induction n with
  | zero => rfl
  | succ k ih =>
    simp only [Bomb.stateAfter, Bomb.update, ih, Bomb.stateAfter_timer]
    by_cases h : 21 ≤ k
    · simp [h, Nat.le_succ_of_le h]
    · simp [h]

theorem pickX_not_in_band (draws : List ℤ) (x : ℤ)
    (h : pickX draws = some x) : inForbiddenBand x = false := by
  induction draws with
  | nil => exact absurd h (by simp [pickX])
  | cons a rest ih =>
    rw [pickX] at h
    by_cases hb : inForbiddenBand a = true
    · rw [if_pos hb] at h
      exact ih h
    · rw [if_neg hb] at h
      cases h
      exact Bool.not_eq_true _ |>.mp hb

end TurtleAdventure

namespace TurtleAdventure

/-- Claim C1 counterexample: the claim says the Bomb performs exactly one
hit test, at tick 20 only, and at tick 21 only self-destructs; but
`Bomb.update` guards the hit test with `timer >= 20`, so the 21st update
call (timer = 21) arms the bomb and runs a second hit test before calling
`self.delete()`. -/
theorem C1_counterexample :
    (Bomb.tickAt 21).didHitTest = true ∧ (Bomb.tickAt 21).selfDeleted = true := by
  decide

/-- Claim C1 (amended): counting update calls as ticks (call n sets
timer = n): calls 1-19 are dormant with no hit test; calls 20 and 21 each
perform a hit test against the player; call 21 additionally self-destructs
the bomb unconditionally, so over its 21-tick lifetime the bomb is deleted
exactly at tick 21 and never before. -/
theorem C1_bomb_lifetime (n : ℕ) (h1 : 1 ≤ n) (h2 : n ≤ 21) :
    ((Bomb.tickAt n).didHitTest = true ↔ (n = 20 ∨ n = 21)) ∧
    ((Bomb.tickAt n).selfDeleted = true ↔ n = 21) ∧
    ((Bomb.stateAfter n).deleted = true ↔ n = 21) ∧
    (Bomb.stateAfter n).timer = n := by
  have hn : n - 1 + 1 = n := Nat.succ_pred_eq_of_pos h1
  unfold Bomb.tickAt Bomb.update
  simp only [Bomb.stateAfter_timer, Bomb.stateAfter_deleted, hn,
    Bool.or_eq_true, decide_eq_true_eq, and_true]
  omega

/-- Witness for C1_bomb_lifetime at the concrete tick 21. -/
theorem C1_bomb_lifetime_witness :
    ((Bomb.tickAt 21).didHitTest = true ↔ ((21 : ℕ) = 20 ∨ (21 : ℕ) = 21)) ∧
    ((Bomb.tickAt 21).selfDeleted = true ↔ (21 : ℕ) = 21) ∧
    ((Bomb.stateAfter 21).deleted = true ↔ (21 : ℕ) = 21) ∧
    (Bomb.stateAfter 21).timer = 21 :=
  C1_bomb_lifetime 21 (by decide) (by decide)

/-- Claim C8 counterexample: the claim says a random-in-bounds agent's
final x never lies in [40, 60]; but the re-roll guard is the strict
`40 < x < 60`, so a draw of exactly 40 is accepted — and 40 lies in the
closed band [40, 60]. -/
theorem C8_counterexample :
    pickX [40] = some 40 ∧ (40 ≤ (40 : ℤ) ∧ (40 : ℤ) ≤ 60) := by
  exact ⟨rfl, by decide⟩

/-- Claim C8 (amended): a random-in-bounds agent's final x never lies in
the open band (40, 60) — the x is re-rolled while it falls strictly inside
that band — and the scheduler reschedules its next firing
`int(4000 / level)` time units later, the floor of 4000 / level. -/
theorem C8_spawn_band_and_delay :
    (∀ (draws : List ℤ) (x : ℤ), pickX draws = some x → x ≤ 40 ∨ 60 ≤ x) ∧
    (∀ level : ℕ, 0 < level →
      level * schedDelay level ≤ 4000 ∧
      4000 < level * (schedDelay level + 1)) := by
  constructor
  · intro draws x h
    have hb := pickX_not_in_band draws x h
    simp only [inForbiddenBand, decide_eq_false_iff_not, not_and, not_lt] at hb
    omega
  · intro l hl
    have h1 := Nat.div_add_mod 4000 l
    have h2 := Nat.mod_lt 4000 hl
    constructor
    · exact Nat.le.intro h1
    · rw [Nat.mul_add, Nat.mul_one]
      unfold schedDelay
      linarith

/-- Witness for C8_spawn_band_and_delay: a draw of 61 is accepted and lies
outside the open band; at level 2 the delay is 2000, which the floor
characterisation pins down. -/
theorem C8_spawn_band_and_delay_witness :
    ((61 : ℤ) ≤ 40 ∨ (60 : ℤ) ≤ 61) ∧
    (2 * schedDelay 2 ≤ 4000 ∧ 4000 < 2 * (schedDelay 2 + 1)) :=
  ⟨C8_spawn_band_and_delay.1 [61] 61 rfl, C8_spawn_band_and_delay.2 2 (by decide)⟩

/-- Claim C9: evaluation at the failing inputs. `TurtleAdventureGame` with
level 0 stores level 0 unchanged, and `Enemy` with size -5 stores size -5
unchanged: the constructors neither reject nor clamp malformed
configuration. -/
theorem C9_constructors_store_verbatim :
    (mkTurtleAdventureGame 800 600 0).level = 0 ∧
    (mkEnemy (-5) "red").size = -5 :=
  ⟨rfl, rfl⟩

end TurtleAdventure

namespace TurtleAdventure

/-! ## RandomWalkEnemy (src/turtle_adventure.py:284-331) -/

/-- The two method-as-state values of `RandomWalkEnemy.state`. -/
inductive WalkState where
  | movingLeft
  | movingRight
  deriving Repr, DecidableEq

/-- Position and discrete state of a `RandomWalkEnemy` (y never changes). -/
structure Walker where
  x : ℚ
  state : WalkState
  deriving Repr, DecidableEq

/-- Validity of a draw of `random.randint(-self.speed, self.speed - 4 + 1)`
in `RandomWalkEnemy.left` (src/turtle_adventure.py:309): inclusive range
[-speed, speed - 3]. -/
def leftDrawValid (speed r : ℤ) : Prop :=
  -speed ≤ r ∧ r ≤ speed - 3

/-- Validity of a draw of `random.randint(-self.speed + 4, self.speed + 1)`
in `RandomWalkEnemy.right` (src/turtle_adventure.py:316): inclusive range
[-speed + 4, speed + 1]. -/
def rightDrawValid (speed r : ℤ) : Prop :=
  -speed + 4 ≤ r ∧ r ≤ speed + 1

/-- Embedding of one movement step of `RandomWalkEnemy.update`
(which calls `self.state()`): `left` flips to `right` when `x < 0`,
otherwise adds the draw; `right` flips to `left` when
`x > canvas.winfo_width()`, otherwise adds the draw. `width` is the
canvas width, `r` the `randint` draw consumed when no flip occurs. -/
def walkerStep (width : ℚ) (w : Walker) (r : ℤ) : Walker :=
  match w.state with
  | .movingLeft =>
      if w.x < 0 then { w with state := .movingRight }
      else { w with x := w.x + (r : ℚ) }
  | .movingRight =>
      if w.x > width then { w with state := .movingLeft }
      else { w with x := w.x + (r : ℚ) }

/-! ## ChasingEnemy (src/turtle_adventure.py:334-397) -/

/-- The two method-as-state values of `ChasingEnemy.xstate`. -/
inductive ChaseX where
  | left
  | right
  deriving Repr, DecidableEq

/-- The two method-as-state values of `ChasingEnemy.ystate`. -/
inductive ChaseY where
  | up
  | down
  deriving Repr, DecidableEq

/-- Embedding of the x-axis step of `ChasingEnemy.update` (which calls
`self.xstate()`): in `right`, flip to `left` when `x > player.x`,
otherwise `x += speed`; in `left`, flip to `right` when `x < player.x`,
otherwise `x += -speed`. `speed` is the stored `speed / 3`. Returns the
new x and the new x-state. -/
def chaserStepX (speed px x : ℚ) : ChaseX → ℚ × ChaseX
  | .right => if x > px then (x, .left) else (x + speed, .right)
  | .left => if x < px then (x, .right) else (x - speed, .left)

/-- Embedding of the y-axis step of `ChasingEnemy.update` (which calls
`self.ystate()`): in `up`, flip to `down` when `y < player.y`, otherwise
`y += -speed`; in `down`, flip to `up` when `y > player.y`, otherwise
`y += speed`. -/
def chaserStepY (speed py y : ℚ) : ChaseY → ℚ × ChaseY
  | .up => if y < py then (y, .down) else (y - speed, .up)
  | .down => if y > py then (y, .up) else (y + speed, .down)

end TurtleAdventure

namespace TurtleAdventure

/-- Claim C5 counterexample: the claim says x is non-increasing while in
the moving-left state (no boundary flip); but the moving-left range is
[-speed, speed - 3], which for speed 5 contains +2: a walker at x = 10
with draw 2 moves to x = 12 > 10, still in moving-left. -/
theorem C5_counterexample :
    leftDrawValid 5 2 ∧
    walkerStep 800 { x := 10, state := .movingLeft } 2 =
      { x := 12, state := .movingLeft } ∧
    ¬ ((12 : ℚ) ≤ 10) := by
  refine ⟨by constructor <;> decide, ?_, by norm_num⟩
  norm_num [walkerStep]

/-- Claim C5 (amended): in the moving-left state with x ≥ 0 the per-tick
x-change is a draw in [-speed, speed - 3] (negative-biased, but up to
speed - 3 of rightward jitter is possible), and in the moving-right state
with x ≤ width it is a draw in [-speed + 4, speed + 1] (positive-biased);
a boundary flip (x < 0 in moving-left, x > width in moving-right)
consumes the tick without moving. -/
theorem C5_walker_step_ranges (width : ℚ) (speed r : ℤ) (w : Walker) :
    (w.state = .movingLeft → 0 ≤ w.x → leftDrawValid speed r →
      (walkerStep width w r).state = .movingLeft ∧
      (walkerStep width w r).x = w.x + (r : ℚ) ∧
      w.x - (speed : ℚ) ≤ (walkerStep width w r).x ∧
      (walkerStep width w r).x ≤ w.x + (speed : ℚ) - 3) ∧
    (w.state = .movingLeft → w.x < 0 →
      (walkerStep width w r).state = .movingRight ∧
      (walkerStep width w r).x = w.x) ∧
    (w.state = .movingRight → w.x ≤ width → rightDrawValid speed r →
      (walkerStep width w r).state = .movingRight ∧
      (walkerStep width w r).x = w.x + (r : ℚ) ∧
      w.x - (speed : ℚ) + 4 ≤ (walkerStep width w r).x ∧
      (walkerStep width w r).x ≤ w.x + (speed : ℚ) + 1) ∧
    (w.state = .movingRight → width < w.x →
      (walkerStep width w r).state = .movingLeft ∧
      (walkerStep width w r).x = w.x) := by
  obtain ⟨wx, ws⟩ := w
  refine ⟨?_, ?_, ?_, ?_⟩
  · rintro rfl hx ⟨hr1, hr2⟩
    simp only [walkerStep, if_neg (not_lt.mpr hx)]
    refine ⟨by trivial, by trivial, ?_, ?_⟩
    · have : ((-speed : ℤ) : ℚ) ≤ (r : ℚ) := by exact_mod_cast hr1
      push_cast at this ⊢
      linarith
    · have : (r : ℚ) ≤ ((speed - 3 : ℤ) : ℚ) := by exact_mod_cast hr2
      push_cast at this ⊢
      linarith
  · rintro rfl hx
    simp only [walkerStep, if_pos hx]
    exact ⟨by trivial, by trivial⟩
  · rintro rfl hx ⟨hr1, hr2⟩
    simp only [walkerStep, if_neg (not_lt.mpr hx)]
    refine ⟨by trivial, by trivial, ?_, ?_⟩
    · have : ((-speed + 4 : ℤ) : ℚ) ≤ (r : ℚ) := by exact_mod_cast hr1
      push_cast at this ⊢
      linarith
    · have : (r : ℚ) ≤ ((speed + 1 : ℤ) : ℚ) := by exact_mod_cast hr2
      push_cast at this ⊢
      linarith
  · rintro rfl hx
    simp only [walkerStep, if_pos hx]
    exact ⟨by trivial, by trivial⟩

/-- Witness for C5_walker_step_ranges: a moving-left walker at x = 10 with
draw -5 (speed 5, width 800) stays in moving-left and lands on x = 5,
inside the stated range. -/
theorem C5_walker_step_ranges_witness :
    (walkerStep 800 { x := 10, state := .movingLeft } (-5)).state = .movingLeft ∧
    (walkerStep 800 { x := 10, state := .movingLeft } (-5)).x = 10 + ((-5 : ℤ) : ℚ) ∧
    (10 : ℚ) - ((5 : ℤ) : ℚ) ≤ (walkerStep 800 { x := 10, state := .movingLeft } (-5)).x ∧
    (walkerStep 800 { x := 10, state := .movingLeft } (-5)).x ≤ 10 + ((5 : ℤ) : ℚ) - 3 :=
  (C5_walker_step_ranges 800 5 (-5) { x := 10, state := .movingLeft }).1
    rfl (by norm_num) (by constructor <;> decide)

end TurtleAdventure

namespace TurtleAdventure

/-- Claim C7 counterexample: the claim says the x-distance magnitude is
non-increasing while approaching; but a chaser at x = 9 approaching a
player at x = 10 with per-axis speed 5 overshoots to x = 14: the distance
grows from 1 to 4 while the state stays in its approaching half. -/
theorem C7_counterexample :
    chaserStepX 5 10 9 .right = (14, .right) ∧
    ¬ (|(10 : ℚ) - 14| ≤ |(10 : ℚ) - 9|) := by
  constructor
  · norm_num [chaserStepX]
  · norm_num

/-- Claim C7 (amended): while an axis state machine is in its approaching
half, the step moves by exactly the per-axis speed toward the player
without flipping; the distance magnitude is non-increasing whenever it is
at least the per-axis speed, and an overshooting tick (distance below the
speed) leaves the new distance at most the speed, possibly larger than
before; the state flips side exactly when the chaser has crossed the
player's coordinate, and a flipping tick does not move. Symmetrically on
both axes. -/
theorem C7_chaser_approach (speed px x py y : ℚ) (hs : 0 < speed) :
    (x ≤ px →
      (chaserStepX speed px x .right).2 = ChaseX.right ∧
      (chaserStepX speed px x .right).1 = x + speed ∧
      (speed ≤ px - x → |px - (chaserStepX speed px x .right).1| ≤ |px - x|) ∧
      (px - x < speed → |px - (chaserStepX speed px x .right).1| ≤ speed)) ∧
    (px < x → chaserStepX speed px x .right = (x, ChaseX.left)) ∧
    (px ≤ x →
      (chaserStepX speed px x .left).2 = ChaseX.left ∧
      (chaserStepX speed px x .left).1 = x - speed ∧
      (speed ≤ x - px → |px - (chaserStepX speed px x .left).1| ≤ |px - x|) ∧
      (x - px < speed → |px - (chaserStepX speed px x .left).1| ≤ speed)) ∧
    (x < px → chaserStepX speed px x .left = (x, ChaseX.right)) ∧
    (py ≤ y →
      (chaserStepY speed py y .up).2 = ChaseY.up ∧
      (chaserStepY speed py y .up).1 = y - speed ∧
      (speed ≤ y - py → |py - (chaserStepY speed py y .up).1| ≤ |py - y|) ∧
      (y - py < speed → |py - (chaserStepY speed py y .up).1| ≤ speed)) ∧
    (y < py → chaserStepY speed py y .up = (y, ChaseY.down)) ∧
    (y ≤ py →
      (chaserStepY speed py y .down).2 = ChaseY.down ∧
      (chaserStepY speed py y .down).1 = y + speed ∧
      (speed ≤ py - y → |py - (chaserStepY speed py y .down).1| ≤ |py - y|) ∧
      (py - y < speed → |py - (chaserStepY speed py y .down).1| ≤ speed)) ∧
    (py < y → chaserStepY speed py y .down = (y, ChaseY.up)) := by
  refine ⟨?_, ?_, ?_, ?_, ?_, ?_, ?_, ?_⟩
  · intro hx
    simp only [chaserStepX, if_neg (not_lt.mpr hx)]
    refine ⟨by trivial, by trivial, ?_, ?_⟩
    · intro hd
      have h1 : (0 : ℚ) ≤ px - (x + speed) := by linarith
      have h2 : (0 : ℚ) ≤ px - x := by linarith
      rw [abs_of_nonneg h1, abs_of_nonneg h2]
      linarith
    · intro hd
      have h1 : px - (x + speed) ≤ (0 : ℚ) := by linarith
      rw [abs_of_nonpos h1]
      linarith
  · intro hx
    simp only [chaserStepX, if_pos hx]
  · intro hx
    simp only [chaserStepX, if_neg (not_lt.mpr hx)]
    refine ⟨by trivial, by trivial, ?_, ?_⟩
    · intro hd
      have h1 : px - (x - speed) ≤ (0 : ℚ) := by linarith
      have h2 : px - x ≤ (0 : ℚ) := by linarith
      rw [abs_of_nonpos h1, abs_of_nonpos h2]
      linarith
    · intro hd
      have h1 : (0 : ℚ) ≤ px - (x - speed) := by linarith
      rw [abs_of_nonneg h1]
      linarith
  · intro hx
    simp only [chaserStepX, if_pos hx]
  · intro hy
    simp only [chaserStepY, if_neg (not_lt.mpr hy)]
    refine ⟨by trivial, by trivial, ?_, ?_⟩
    · intro hd
      have h1 : py - (y - speed) ≤ (0 : ℚ) := by linarith
      have h2 : py - y ≤ (0 : ℚ) := by linarith
      rw [abs_of_nonpos h1, abs_of_nonpos h2]
      linarith
    · intro hd
      have h1 : (0 : ℚ) ≤ py - (y - speed) := by linarith
      rw [abs_of_nonneg h1]
      linarith
  · intro hy
    simp only [chaserStepY, if_pos hy]
  · intro hy
    simp only [chaserStepY, if_neg (not_lt.mpr hy)]
    refine ⟨by trivial, by trivial, ?_, ?_⟩
    · intro hd
      have h1 : (0 : ℚ) ≤ py - (y + speed) := by linarith
      have h2 : (0 : ℚ) ≤ py - y := by linarith
      rw [abs_of_nonneg h1, abs_of_nonneg h2]
      linarith
    · intro hd
      have h1 : py - (y + speed) ≤ (0 : ℚ) := by linarith
      rw [abs_of_nonpos h1]
      linarith
  · intro hy
    simp only [chaserStepY, if_pos hy]

/-- Witness for C7_chaser_approach: chaser at x = 0 approaching a player
at x = 10 with speed 1 steps to x = 1 without flipping, and the distance
shrinks from 10 to 9. -/
theorem C7_chaser_approach_witness :
    (chaserStepX 1 10 0 .right).2 = ChaseX.right ∧
    (chaserStepX 1 10 0 .right).1 = 0 + 1 ∧
    |(10 : ℚ) - (chaserStepX 1 10 0 .right).1| ≤ |(10 : ℚ) - 0| := by
  have h := (C7_chaser_approach 1 10 0 10 0 (by norm_num)).1 (by norm_num)
  exact ⟨h.1, h.2.1, h.2.2.1 (by norm_num)⟩

end TurtleAdventure

namespace TurtleAdventure

/-! ## FencingEnemy (src/turtle_adventure.py:400-465) -/

/-- The four method-as-state values of `FencingEnemy.state`. -/
inductive FenceState where
  | down
  | right
  | up
  | left
  deriving Repr, DecidableEq

/-- The fixed cyclic successor of the patrol states:
down → right → up → left → down. -/
def FenceState.next : FenceState → FenceState
  | .down => .right
  | .right => .up
  | .up => .left
  | .left => .down

/-- Position and discrete state of a `FencingEnemy`. -/
structure Fencer where
  x : ℚ
  y : ℚ
  state : FenceState
  deriving Repr, DecidableEq

/-- The patrol rectangle computed once by `FencingEnemy.__init__`
(src/turtle_adventure.py:416-419):
`home_top = home.y - home.size/2 - 20`, `home_bottom = home.y +
home.size/2 + 20`, `home_left = home.x - home.size/2 - 20`,
`home_right = home.x + home.size/2 + 20`. -/
structure PatrolRect where
  top : ℚ
  bottom : ℚ
  left : ℚ
  right : ℚ
  deriving Repr, DecidableEq

/-- The patrol rectangle of a Home centred at `(hx, hy)` with size
`hsize`, exactly as `FencingEnemy.__init__` computes it. -/
def mkPatrolRect (hx hy hsize : ℚ) : PatrolRect :=
  { top := hy - hsize / 2 - 20
    bottom := hy + hsize / 2 + 20
    left := hx - hsize / 2 - 20
    right := hx + hsize / 2 + 20 }

/-- Embedding of one movement step of `FencingEnemy.update` (which calls
`self.state()`); `s` is the stored `speed / 4`
(src/turtle_adventure.py:415). `down`: flip to `right` when
`y >= home_bottom`, else `y += s`; `right`: flip to `up` when
`x >= home_right`, else `x += s`; `up`: flip to `left` when
`y <= home_top`, else `y += -s`; `left`: flip to `down` when
`x <= home_left`, else `x += -s`. -/
def fencingStep (s : ℚ) (r : PatrolRect) (f : Fencer) : Fencer :=
  match f.state with
  | .down => if r.bottom ≤ f.y then { f with state := .right }
             else { f with y := f.y + s }
  | .right => if r.right ≤ f.x then { f with state := .up }
              else { f with x := f.x + s }
  | .up => if f.y ≤ r.top then { f with state := .left }
           else { f with y := f.y - s }
  | .left => if f.x ≤ r.left then { f with state := .down }
             else { f with x := f.x - s }

/-- The spawn position of a `FencingEnemy` per the `"home"` placement rule
of `EnemyGenerator.create_enemy` (src/turtle_adventure.py:603-605):
`(home.x - home.size/2 - 20, home.y - home.size/2 - 20)`, i.e. the
top-left corner of the patrol rectangle, in the initial `down` state. -/
def fencerSpawn (r : PatrolRect) : Fencer :=
  { x := r.left, y := r.top, state := .down }

/-- The fencer's state after `n` update calls from its spawn. -/
def fencerAfter (s : ℚ) (r : PatrolRect) : ℕ → Fencer
  | 0 => fencerSpawn r
  | n + 1 => fencingStep s r (fencerAfter s r n)

/-- Inductive invariant of the fencer: per state, which strip of the
(one-step-inflated) patrol rectangle it occupies. -/
def fenceInv (s : ℚ) (r : PatrolRect) (f : Fencer) : Prop :=
  match f.state with
  | .down => r.left - s < f.x ∧ f.x ≤ r.left ∧
             r.top - s < f.y ∧ f.y < r.bottom + s
  | .right => r.bottom ≤ f.y ∧ f.y < r.bottom + s ∧
              r.left - s < f.x ∧ f.x < r.right + s
  | .up => r.right ≤ f.x ∧ f.x < r.right + s ∧
           r.top - s < f.y ∧ f.y < r.bottom + s
  | .left => r.top - s < f.y ∧ f.y ≤ r.top ∧
             r.left - s < f.x ∧ f.x < r.right + s

end TurtleAdventure

namespace TurtleAdventure

theorem fenceInv_step (s : ℚ) (r : PatrolRect) (f : Fencer)
    (hs : 0 < s) (htb : r.top < r.bottom) (hlr : r.left < r.right)
    (hf : fenceInv s r f) : fenceInv s r (fencingStep s r f) := by
  obtain ⟨fx, fy, fs⟩ := f
  cases fs with
  | down =>
    obtain ⟨h1, h2, h3, h4⟩ := hf
    by_cases hg : r.bottom ≤ fy
    · simp only [fencingStep, if_pos hg, fenceInv]
      exact ⟨hg, h4, h1, by linarith⟩
    · simp only [fencingStep, if_neg hg, fenceInv]
      push_neg at hg
      exact ⟨h1, h2, by linarith, by linarith⟩
  | right =>
    obtain ⟨h1, h2, h3, h4⟩ := hf
    by_cases hg : r.right ≤ fx
    · simp only [fencingStep, if_pos hg, fenceInv]
      exact ⟨hg, h4, by linarith, h2⟩
    · simp only [fencingStep, if_neg hg, fenceInv]
      push_neg at hg
      exact ⟨h1, h2, by linarith, by linarith⟩
  | up =>
    obtain ⟨h1, h2, h3, h4⟩ := hf
    by_cases hg : fy ≤ r.top
    · simp only [fencingStep, if_pos hg, fenceInv]
      exact ⟨h3, hg, by linarith, h2⟩
    · simp only [fencingStep, if_neg hg, fenceInv]
      push_neg at hg
      exact ⟨h1, h2, by linarith, by linarith⟩
  | left =>
    obtain ⟨h1, h2, h3, h4⟩ := hf
    by_cases hg : fx ≤ r.left
    · simp only [fencingStep, if_pos hg, fenceInv]
      exact ⟨h3, hg, h1, by linarith⟩
    · simp only [fencingStep, if_neg hg, fenceInv]
      push_neg at hg
      exact ⟨h1, h2, by linarith, by linarith⟩

theorem fenceInv_bounds (s : ℚ) (r : PatrolRect) (f : Fencer)
    (hs : 0 < s) (htb : r.top < r.bottom) (hlr : r.left < r.right)
    (hf : fenceInv s r f) :
    r.left - s < f.x ∧ f.x < r.right + s ∧
    r.top - s < f.y ∧ f.y < r.bottom + s := by
  obtain ⟨fx, fy, fs⟩ := f
  cases fs <;>
    obtain ⟨h1, h2, h3, h4⟩ := hf <;>
    exact ⟨by linarith, by linarith, by linarith, by linarith⟩

theorem fenceInv_after (s : ℚ) (r : PatrolRect)
    (hs : 0 < s) (htb : r.top < r.bottom) (hlr : r.left < r.right)
    (n : ℕ) : fenceInv s r (fencerAfter s r n) := by
  induction n with
  | zero =>
    simp only [fencerAfter, fencerSpawn, fenceInv]
    exact ⟨by linarith, le_refl _, by linarith, by linarith⟩
  | succ k ih => exact fenceInv_step s r _ hs htb hlr ih

theorem fencerAfter_down_phase (s : ℚ) (r : PatrolRect) (n : ℕ)
    (h : ∀ k : ℕ, k < n → r.top + k * s < r.bottom) :
    fencerAfter s r n = { x := r.left, y := r.top + n * s, state := .down } := by
  induction n with
  | zero => simp [fencerAfter, fencerSpawn]
  | succ m ih =>
    have hm : fencerAfter s r m = { x := r.left, y := r.top + m * s, state := .down } :=
      ih (fun k hk => h k (Nat.lt_succ_of_lt hk))
    have hg : ¬ (r.bottom ≤ r.top + (m : ℚ) * s) :=
      not_le.mpr (h m (Nat.lt_succ_self m))
    have hy : r.top + ((m + 1 : ℕ) : ℚ) * s = r.top + (m : ℚ) * s + s := by
      push_cast
      ring
    show fencingStep s r (fencerAfter s r m) = _
    rw [hm, hy]
    simp only [fencingStep, if_neg hg]

theorem fencingStep_state (s : ℚ) (r : PatrolRect) (f : Fencer) :
    (fencingStep s r f).state = f.state ∨
    (fencingStep s r f).state = f.state.next := by
  obtain ⟨fx, fy, fs⟩ := f
  cases fs <;> simp only [fencingStep] <;> split <;>
    simp [FenceState.next]

end TurtleAdventure

namespace TurtleAdventure

/-- Claim C6 counterexample: the claim says the Patroller's position stays
within Home's bounds ± (size/2 + 20); but at level 3 (stored step
9/4) with Home at (700, 300) of size 20 (patrol rectangle
[570, 630] × [270, 330]), the fencer spawned at (570, 270) reaches
y = 330.75 > 330 on its 27th update: the last step before the flip
overshoots the rectangle. -/
theorem C6_counterexample :
    (fencerAfter (9 / 4) (mkPatrolRect 700 300 20) 27).y = 1323 / 4 ∧
    ¬ ((1323 : ℚ) / 4 ≤ (mkPatrolRect 700 300 20).bottom) := by
  constructor
  · rw [fencerAfter_down_phase]
    · norm_num [mkPatrolRect]
    · intro k hk
      simp only [mkPatrolRect]
      have hk26 : (k : ℚ) ≤ 26 := by exact_mod_cast Nat.lt_succ_iff.mp hk
      have hks : (k : ℚ) * (9 / 4) ≤ 26 * (9 / 4) := by nlinarith
      linarith
  · norm_num [mkPatrolRect]

/-- Claim C6 (amended): the Patroller advances through its four states
only in the fixed cyclic order down → right → up → left → down, and its
position stays within the patrol rectangle (Home's bounds ± (size/2 + 20))
inflated by strictly less than one step (speed/4) on each side, in every
reachable state. -/
theorem C6_fencing_cycle_and_bounds (hx hy hsize sp : ℚ)
    (hsp : 0 < sp) (hsz : 0 ≤ hsize) :
    (∀ f : Fencer,
      (fencingStep (sp / 4) (mkPatrolRect hx hy hsize) f).state = f.state ∨
      (fencingStep (sp / 4) (mkPatrolRect hx hy hsize) f).state = f.state.next) ∧
    (∀ n : ℕ,
      hx - hsize / 2 - 20 - sp / 4 <
        (fencerAfter (sp / 4) (mkPatrolRect hx hy hsize) n).x ∧
      (fencerAfter (sp / 4) (mkPatrolRect hx hy hsize) n).x <
        hx + hsize / 2 + 20 + sp / 4 ∧
      hy - hsize / 2 - 20 - sp / 4 <
        (fencerAfter (sp / 4) (mkPatrolRect hx hy hsize) n).y ∧
      (fencerAfter (sp / 4) (mkPatrolRect hx hy hsize) n).y <
        hy + hsize / 2 + 20 + sp / 4) := by
  have hs : 0 < sp / 4 := by linarith
  have htb : (mkPatrolRect hx hy hsize).top < (mkPatrolRect hx hy hsize).bottom := by
    simp only [mkPatrolRect]
    linarith
  have hlr : (mkPatrolRect hx hy hsize).left < (mkPatrolRect hx hy hsize).right := by
    simp only [mkPatrolRect]
    linarith
  refine ⟨fun f => fencingStep_state _ _ f, fun n => ?_⟩
  have hb := fenceInv_bounds (sp / 4) (mkPatrolRect hx hy hsize)
    (fencerAfter (sp / 4) (mkPatrolRect hx hy hsize) n) hs htb hlr
    (fenceInv_after (sp / 4) (mkPatrolRect hx hy hsize) hs htb hlr n)
  simp only [mkPatrolRect] at hb ⊢
  obtain ⟨b1, b2, b3, b4⟩ := hb
  exact ⟨by linarith, by linarith, by linarith, by linarith⟩

/-- Witness for C6_fencing_cycle_and_bounds at level 1 (speed 3, Home at
(700, 300) size 20) after 80 updates — one full bottom edge traversal. -/
theorem C6_fencing_cycle_and_bounds_witness :
    ((fencingStep (3 / 4) (mkPatrolRect 700 300 20)
        { x := 570, y := 270, state := .down }).state =
      ({ x := 570, y := 270, state := .down } : Fencer).state ∨
     (fencingStep (3 / 4) (mkPatrolRect 700 300 20)
        { x := 570, y := 270, state := .down }).state =
      ({ x := 570, y := 270, state := .down } : Fencer).state.next) ∧
    ((700 : ℚ) - 20 / 2 - 20 - 3 / 4 <
        (fencerAfter (3 / 4) (mkPatrolRect 700 300 20) 80).x ∧
      (fencerAfter (3 / 4) (mkPatrolRect 700 300 20) 80).x <
        700 + 20 / 2 + 20 + 3 / 4 ∧
      (300 : ℚ) - 20 / 2 - 20 - 3 / 4 <
        (fencerAfter (3 / 4) (mkPatrolRect 700 300 20) 80).y ∧
      (fencerAfter (3 / 4) (mkPatrolRect 700 300 20) 80).y <
        300 + 20 / 2 + 20 + 3 / 4) := by
  have h := C6_fencing_cycle_and_bounds 700 300 20 3 (by norm_num) (by norm_num)
  exact ⟨h.1 { x := 570, y := 270, state := .down }, h.2 80⟩

end TurtleAdventure

namespace TurtleAdventure

/-! ## Orchestrator (TurtleAdventureGame over gamelib's Game)

`gamelib` is a module of this repository that is not under src/; its
`Game.stop`, `Game.add_element` and the tick loop are modelled from the
spec where noted. -/

/-- Core simulation state of the orchestrator: the entity collection and
the enemies list it owns, and whether the loop is running. Entities are
identified by ids; per the spec, banner drawing belongs to the external
render collaborator and is not core state. -/
structure OrchState where
  elements : List ℕ
  enemies : List ℕ
  running : Bool
  deriving Repr, DecidableEq

/-- Modelled from the spec: gamelib's `Game.add_element` (not under src/)
registers a new entity in the orchestrator's entity collection. -/
def add_element (g : OrchState) (e : ℕ) : OrchState :=
  { g with elements := g.elements ++ [e] }

/-- Modelled from the spec: destroying an entity removes it from the
orchestrator's entity collection ("the orchestrator's entity collection
contains no entity after it is destroyed"); gamelib's removal operation is
not under src/. -/
def remove_element (g : OrchState) (e : ℕ) : OrchState :=
  { g with elements := g.elements.filter (fun i => i ≠ e) }

/-- Embedding of `TurtleAdventureGame.add_enemy`
(src/turtle_adventure.py:657-662): appends to `self.enemies`, then calls
`self.add_element(enemy)`. Present in the code, but no code under src/
ever calls it. -/
def add_enemy (g : OrchState) (e : ℕ) : OrchState :=
  add_element { g with enemies := g.enemies ++ [e] } e

/-- Modelled from the spec: gamelib's `Game.stop` (not under src/) halts
the simulation loop; all future ticks are suppressed. -/
def stop (g : OrchState) : OrchState :=
  { g with running := false }

/-- Embedding of `TurtleAdventureGame.game_over_win`
(src/turtle_adventure.py:664-674) restricted to core state: calls
`self.stop()`; the "You Win" banner goes to the render collaborator. -/
def game_over_win (g : OrchState) : OrchState :=
  stop g

/-- Embedding of `TurtleAdventureGame.game_over_lose`
(src/turtle_adventure.py:676-686) restricted to core state: calls
`self.stop()`; the "You Lose" banner goes to the render collaborator. -/
def game_over_lose (g : OrchState) : OrchState :=
  stop g

/-- Modelled from the spec: the orchestrator advances one tick (update
then render for every live entity) only while running; once stopped, a
tick changes nothing. `upd` is the aggregate effect of one tick on the
core state. -/
def orchTick (upd : OrchState → OrchState) (g : OrchState) : OrchState :=
  if g.running then upd g else g

/-- The state after `TurtleAdventureGame.__init__` and `init_game`
(src/turtle_adventure.py:622-655): `enemies = []`, and the waypoint, home
and player (ids 0, 1, 2) registered via `add_element` — `add_enemy` is
not called. -/
def initGame : OrchState :=
  add_element (add_element (add_element
    { elements := [], enemies := [], running := true } 0) 1) 2

/-- The reachable orchestrator states: the initial state, followed by any
interleaving of the operations the core performs on the collections —
`EnemyGenerator.create_enemy` registering a spawned enemy via
`self.game.add_element(enemy)` (src/turtle_adventure.py:612),
`DeDestroyerEnemy.update` registering a bomb via
`self.game.add_element(bomb)` (src/turtle_adventure.py:497), entity
destruction, and the two game-over notifications. No operation invokes
`add_enemy`: nothing under src/ calls it. -/
inductive ReachableGame : OrchState → Prop where
  | init : ReachableGame initGame
  | spawn (g : OrchState) (e : ℕ) :
      ReachableGame g → ReachableGame (add_element g e)
  | destroy (g : OrchState) (e : ℕ) :
      ReachableGame g → ReachableGame (remove_element g e)
  | win (g : OrchState) : ReachableGame g → ReachableGame (game_over_win g)
  | lose (g : OrchState) : ReachableGame g → ReachableGame (game_over_lose g)

end TurtleAdventure

namespace TurtleAdventure

/-- Claim C4: the first notification stops the orchestrator, and any later
notification — same tick or a later one — is a no-op on the core state, as
is any tick attempted after a stop. (gamelib's `stop` and tick loop are
modelled from the spec; the banner re-draw both notifications issue goes
to the external render collaborator, outside the core state.) -/
theorem C4_game_over_idempotent (g : OrchState) (upd : OrchState → OrchState) :
    (game_over_win g).running = false ∧
    (game_over_lose g).running = false ∧
    game_over_win (game_over_win g) = game_over_win g ∧
    game_over_lose (game_over_win g) = game_over_win g ∧
    game_over_win (game_over_lose g) = game_over_lose g ∧
    game_over_lose (game_over_lose g) = game_over_lose g ∧
    orchTick upd (game_over_win g) = game_over_win g ∧
    orchTick upd (game_over_lose g) = game_over_lose g := by
  refine ⟨rfl, rfl, rfl, rfl, rfl, rfl, ?_, ?_⟩ <;>
    simp [orchTick, game_over_win, game_over_lose, stop]

/-- Claim C10: in every reachable state of the game the `enemies` list is
empty — every operation of the core registers entities only through
`add_element`, and `add_enemy` (the only appender to `enemies`) is never
called. -/
theorem C10_enemies_list_empty (g : OrchState) (h : ReachableGame g) :
    g.enemies = [] := by
  induction h with
  | init => rfl
  | spawn g e _ ih => simpa [add_element] using ih
  | destroy g e _ ih => simpa [remove_element] using ih
  | win g _ ih => simpa [game_over_win, stop] using ih
  | lose g _ ih => simpa [game_over_lose, stop] using ih

/-- Witness for C10_enemies_list_empty: the initial game state after a
spawn and a destroy has an empty enemies list. -/
theorem C10_enemies_list_empty_witness :
    (remove_element (add_element initGame 3) 1).enemies = [] :=
  C10_enemies_list_empty _
    (ReachableGame.destroy _ 1 (ReachableGame.spawn _ 3 ReachableGame.init))

end TurtleAdventure

namespace TurtleAdventure

/-! ## Player waypoint seeking (Player.update, src/turtle_adventure.py:177-187) -/

/-- Euclidean distance between two points, as turtle's `distance` and
`towards` compute it. -/
noncomputable def turtleDist (p w : ℝ × ℝ) : ℝ :=
  Real.sqrt ((w.1 - p.1) ^ 2 + (w.2 - p.2) ^ 2)

/-- The movement of `Player.update` while the waypoint is active
(src/turtle_adventure.py:184-185): `setheading(towards(waypoint))` then
`forward(speed)` — a step of length `speed` along the freshly recomputed
unit heading toward the waypoint. When the player is exactly on the
waypoint, turtle's `towards` returns heading 0, so the step goes in the
+x direction. -/
noncomputable def playerForward (speed : ℝ) (p w : ℝ × ℝ) : ℝ × ℝ :=
  if turtleDist p w = 0 then (p.1 + speed, p.2)
  else (p.1 + speed * (w.1 - p.1) / turtleDist p w,
        p.2 + speed * (w.2 - p.2) / turtleDist p w)

/-- The full active-waypoint branch of `Player.update`
(src/turtle_adventure.py:183-187): move forward, then
`if turtle.distance(waypoint) < speed: waypoint.deactivate()`. Returns
the new position and the waypoint's activity flag after the tick
(`false` = deactivated). -/
noncomputable def playerUpdateActive (speed : ℝ) (p w : ℝ × ℝ) : (ℝ × ℝ) × Bool :=
  if turtleDist (playerForward speed p w) w < speed
  then (playerForward speed p w, false)
  else (playerForward speed p w, true)

end TurtleAdventure

namespace TurtleAdventure

theorem playerUpdateActive_pos (speed : ℝ) (p w : ℝ × ℝ) :
    (playerUpdateActive speed p w).1 = playerForward speed p w := by
  unfold playerUpdateActive
  split <;> rfl

theorem playerUpdateActive_flag (speed : ℝ) (p w : ℝ × ℝ) :
    ((playerUpdateActive speed p w).2 = false ↔
      turtleDist (playerForward speed p w) w < speed) := by
  unfold playerUpdateActive
  split <;> simp [*]

theorem playerForward_sq (speed : ℝ) (p w : ℝ × ℝ)
    (hd : turtleDist p w ≠ 0) :
    ((playerForward speed p w).1 - p.1) ^ 2 +
      ((playerForward speed p w).2 - p.2) ^ 2 = speed ^ 2 := by
  have hsum : (0 : ℝ) ≤ (w.1 - p.1) ^ 2 + (w.2 - p.2) ^ 2 := by positivity
  have hd2 : turtleDist p w ^ 2 = (w.1 - p.1) ^ 2 + (w.2 - p.2) ^ 2 :=
    Real.sq_sqrt hsum
  rw [playerForward, if_neg hd]
  have step1 :
      (p.1 + speed * (w.1 - p.1) / turtleDist p w, p.2 +
        speed * (w.2 - p.2) / turtleDist p w).1 - p.1 =
      speed * (w.1 - p.1) / turtleDist p w := by ring
  have step2 :
      (p.1 + speed * (w.1 - p.1) / turtleDist p w, p.2 +
        speed * (w.2 - p.2) / turtleDist p w).2 - p.2 =
      speed * (w.2 - p.2) / turtleDist p w := by ring
  rw [step1, step2]
  rw [div_pow, div_pow, div_add_div_same, mul_pow, mul_pow, ← mul_add, ← hd2]
  field_simp

/-- Claim C2: on a tick with the waypoint active (and the player not
already exactly on it), the player advances by exactly `speed` along the
freshly recomputed heading toward the waypoint (the displacement is the
positive multiple `speed / dist` of the vector to the waypoint), the
waypoint is deactivated exactly when the post-move distance to it is
strictly below `speed`, and whenever deactivation occurs the final
resting distance is at most `speed`. -/
theorem C2_waypoint_seeking (speed : ℝ) (p w : ℝ × ℝ)
    (hs : 0 < speed) (hd : turtleDist p w ≠ 0) :
    turtleDist p (playerUpdateActive speed p w).1 = speed ∧
    ((playerUpdateActive speed p w).1.1 - p.1) * turtleDist p w =
      speed * (w.1 - p.1) ∧
    ((playerUpdateActive speed p w).1.2 - p.2) * turtleDist p w =
      speed * (w.2 - p.2) ∧
    ((playerUpdateActive speed p w).2 = false ↔
      turtleDist (playerUpdateActive speed p w).1 w < speed) ∧
    ((playerUpdateActive speed p w).2 = false →
      turtleDist (playerUpdateActive speed p w).1 w ≤ speed) := by
  have hq := playerUpdateActive_pos speed p w
  have hflag := playerUpdateActive_flag speed p w
  have hkey := playerForward_sq speed p w hd
  refine ⟨?_, ?_, ?_, ?_, ?_⟩
  · rw [hq]
    show Real.sqrt _ = speed
    rw [hkey]
    exact Real.sqrt_sq hs.le
  · rw [hq, playerForward, if_neg hd]
    field_simp
    ring
  · rw [hq, playerForward, if_neg hd]
    field_simp
    ring
  · rw [hq]
    exact hflag
  · rw [hq]
    intro hfl
    exact le_of_lt (hflag.mp hfl)

/-- Witness for C2_waypoint_seeking: player at (0, 0), waypoint (3, 4),
speed 5 — the distance is 5, the step lands exactly on the waypoint, and
the waypoint deactivates. -/
theorem C2_waypoint_seeking_witness :
    turtleDist (0, 0) (playerUpdateActive 5 (0, 0) (3, 4)).1 = 5 ∧
    ((playerUpdateActive 5 (0, 0) (3, 4)).1.1 - (0 : ℝ)) *
      turtleDist (0, 0) (3, 4) = 5 * ((3 : ℝ) - 0) ∧
    ((playerUpdateActive 5 (0, 0) (3, 4)).1.2 - (0 : ℝ)) *
      turtleDist (0, 0) (3, 4) = 5 * ((4 : ℝ) - 0) ∧
    ((playerUpdateActive 5 (0, 0) (3, 4)).2 = false ↔
      turtleDist (playerUpdateActive 5 (0, 0) (3, 4)).1 (3, 4) < 5) ∧
    ((playerUpdateActive 5 (0, 0) (3, 4)).2 = false →
      turtleDist (playerUpdateActive 5 (0, 0) (3, 4)).1 (3, 4) ≤ 5) := by
  have hd5 : turtleDist ((0 : ℝ), (0 : ℝ)) ((3 : ℝ), (4 : ℝ)) = 5 := by
    have h25 : (((3 : ℝ), (4 : ℝ)).1 - ((0 : ℝ), (0 : ℝ)).1) ^ 2 +
        (((3 : ℝ), (4 : ℝ)).2 - ((0 : ℝ), (0 : ℝ)).2) ^ 2 = 5 ^ 2 := by
      norm_num
    rw [turtleDist, h25, Real.sqrt_sq (by norm_num : (0 : ℝ) ≤ 5)]
  exact C2_waypoint_seeking 5 (0, 0) (3, 4) (by norm_num)
    (by rw [hd5]; norm_num)

end TurtleAdventure
